import Mathlib

/-!
Verification of the order-lifecycle, cart and chatbot logic of the
Group_Backend e-commerce repository.

The definitions below are a shallow embedding of the JavaScript source:

* `src/controllers/OrderController.js` (the controller wired into
  `routes/OrderRoutes.js`): `updateOrderStatus`, `verifyDeliveryOtp`,
  `cancelOrderItem`, `requestReturn`.
* `src/controllers/CartController.js`: `addToCart`, `removeFromCart`.
* `src/controllers/ChatBotController.js` (wired into `ChatBotRoute.js`):
  the deterministic fast tier of `replyChatBot` and the cart-item
  normalization of the cart flow.

Machine numbers are modelled as `Int`/`Nat` (the arithmetic performed by the
claims is exact), JavaScript `null`/`undefined` as `Option`, and the relevant
JavaScript truthiness rules (`""` and `0` are falsy) are made explicit.
Database reads/writes become explicit state passing: each operation takes the
stored document and returns the response together with the document state
after the request.
-/

instance {ε α : Type} [DecidableEq ε] [DecidableEq α] : DecidableEq (Except ε α) :=
  fun x y =>
    match x, y with
    | Except.ok a, Except.ok b =>
      if h : a = b then isTrue (by rw [h]) else isFalse (by simp [h])
    | Except.error a, Except.error b =>
      if h : a = b then isTrue (by rw [h]) else isFalse (by simp [h])
    | Except.ok _, Except.error _ => isFalse (by simp)
    | Except.error _, Except.ok _ => isFalse (by simp)

/-- Order status enum, from `models/OrderModel.js` (`OrderSchema.status.enum`). -/
inductive Status where
  | pending
  | processing
  | shipped
  | delivered
  | cancelled
  | refunded
  | returnRequested
  | returnedRefunded
deriving DecidableEq, Repr

/-- One order line item, from `OrderSchema.items` (`productId`, `title`,
`quantity`, `price`).  `productId` is the stringified object id. -/
structure Item where
  productId : String
  title : String
  quantity : Int
  price : Int
deriving DecidableEq, Repr

/-- An order document, from `models/OrderModel.js`.  The fields not read or
written by the verified operations (`userId`, `orderDate`, `shippingAddress`)
are omitted. -/
structure Order where
  items : List Item
  totalAmount : Int
  status : Status
  deliveryOtp : Option String
  otpExpiresAt : Option Nat
  otpVerified : Bool
deriving DecidableEq, Repr

/-- `generateOtp` of `OrderController.js`:
`Math.floor(100000 + Math.random() * 900000)`, with the random draw
`Math.floor(Math.random() * 900000)` supplied as the argument `r < 900000`. -/
def generateOtp (r : Nat) : Nat := 100000 + r

/-- The OTP expiry offset written by `updateOrderStatus` in
`controllers/OrderController.js`: `Date.now() + 1 * 24 * 60 * 60 * 1000`. -/
def shippedOtpExpiryMs : Nat := 1 * 24 * 60 * 60 * 1000

/-- The OTP expiry offset of the `updateOrderStatus` variant in the unnamed
duplicate of the order controller (`src/unnamed/part_002`):
`Date.now() + 10 * 60 * 1000`. -/
def shippedOtpExpiryMsV2 : Nat := 10 * 60 * 1000

/-- Result of the state change performed by `updateOrderStatus` (ignoring the
notification side effect, which `updateOrderStatusResp` models). -/
inductive UpdateResult where
  | rejectedDelivered
  | updated (o : Order)
deriving DecidableEq, Repr

/-- State change of `updateOrderStatus` (`controllers/OrderController.js`,
lines 111-167).  A requested status of `Delivered` is rejected before any
mutation; `Shipped` stores a fresh OTP with expiry `now + shippedOtpExpiryMs`;
any other status is written directly.  The requested status is modelled as a
member of the schema enum (mongoose rejects other strings on save). -/
def updateOrderStatus (o : Order) (status : Status) (otp : String) (now : Nat) :
    UpdateResult :=
  if status = Status.delivered then
    UpdateResult.rejectedDelivered
  else if status = Status.shipped then
    UpdateResult.updated
      { o with
        deliveryOtp := some otp
        otpExpiresAt := some (now + shippedOtpExpiryMs)
        status := Status.shipped }
  else
    UpdateResult.updated { o with status := status }

/-- JavaScript falsiness of a nullable string (`!order.deliveryOtp`):
`null`/`undefined` and `""` are falsy. -/
def strFalsy : Option String → Bool
  | none => true
  | some s => s.isEmpty

/-- JavaScript falsiness of a nullable numeric timestamp
(`!order.otpExpiresAt`): `null`/`undefined` and `0` are falsy. -/
def natFalsy : Option Nat → Bool
  | none => true
  | some n => n == 0

/-- Error kinds of OTP verification, named as in the specification; they
correspond one-to-one with the 404/400 responses of `verifyDeliveryOtp`. -/
inductive VerifyError where
  | orderNotFound
  | notShippedState
  | noOtpIssued
  | otpExpired
  | otpMismatch
deriving DecidableEq, Repr

/-- `verifyDeliveryOtp` of `controllers/OrderController.js` (lines 172-207)
applied to an order that was found.  The guard chain is translated verbatim:
status must be `Shipped`; `!order.deliveryOtp || !order.otpExpiresAt` yields
"No OTP generated"; `Date.now() > order.otpExpiresAt` yields "OTP expired";
`order.deliveryOtp !== userOtp` yields "Invalid OTP"; otherwise the order is
saved as Delivered/verified with both OTP fields cleared. -/
def verifyDeliveryOtp (o : Order) (userOtp : String) (now : Nat) :
    Except VerifyError Order :=
  if o.status ≠ Status.shipped then
    Except.error VerifyError.notShippedState
  else if strFalsy o.deliveryOtp || natFalsy o.otpExpiresAt then
    Except.error VerifyError.noOtpIssued
  else if o.otpExpiresAt.getD 0 < now then
    Except.error VerifyError.otpExpired
  else if o.deliveryOtp ≠ some userOtp then
    Except.error VerifyError.otpMismatch
  else
    Except.ok
      { o with
        status := Status.delivered
        otpVerified := true
        deliveryOtp := none
        otpExpiresAt := none }

/-- `verifyDeliveryOtp` including the `Order.findById` miss
(`if (!order) return 404 "Order not found"`). -/
def verifyDeliveryOtpReq (o? : Option Order) (userOtp : String) (now : Nat) :
    Except VerifyError Order :=
  match o? with
  | none => Except.error VerifyError.orderNotFound
  | some o => verifyDeliveryOtp o userOtp now

/-- Error kind of `cancelOrderItem` when
`order.items.findIndex(i => i.productId.toString() === productId)` is `-1`. -/
inductive CancelError where
  | productNotInOrder
deriving DecidableEq, Repr

/-- Removal of the first item whose `productId` matches, returning it together
with the remaining list; implements the `findIndex` + `splice(idx, 1)` pair of
`cancelOrderItem`, and `none` when `findIndex` returns `-1`. -/
def removeFirst (pid : String) : List Item → Option (Item × List Item)
  | [] => none
  | i :: rest =>
    if i.productId = pid then
      some (i, rest)
    else
      (removeFirst pid rest).map (fun p => (p.1, i :: p.2))

/-- `cancelOrderItem` of `controllers/OrderController.js` (lines 212-234)
applied to an order that was found: the first matching line item is spliced
out, `totalAmount` is decremented by `item.price * item.quantity`, and the
status is forced to `Cancelled` exactly when no items remain. -/
def cancelOrderItem (o : Order) (pid : String) : Except CancelError Order :=
  match removeFirst pid o.items with
  | none => Except.error CancelError.productNotInOrder
  | some (item, rest) =>
    Except.ok
      { o with
        totalAmount := o.totalAmount - item.price * item.quantity
        items := rest
        status := if rest.isEmpty then Status.cancelled else o.status }

/-- `requestReturn` of `controllers/OrderController.js` (lines 252-266):
unconditionally writes status `Return Requested`. -/
def requestReturn (o : Order) : Order :=
  { o with status := Status.returnRequested }

/-- One request against an existing order: the four mutating operations of the
order lifecycle (`PUT updateStatus`, `POST verify-otp`, `POST cancel-item`,
`POST request-return` in `routes/OrderRoutes.js`). -/
inductive Op where
  | update (status : Status) (otp : String) (now : Nat)
  | verify (userOtp : String) (now : Nat)
  | cancelItem (productId : String)
  | requestRet
deriving DecidableEq, Repr

/-- The stored order document after a request: rejected or failed requests
return before `order.save()`, so the stored state is unchanged. -/
def applyOp (o : Order) : Op → Order
  | Op.update s otp now =>
    match updateOrderStatus o s otp now with
    | UpdateResult.rejectedDelivered => o
    | UpdateResult.updated o' => o'
  | Op.verify userOtp now =>
    match verifyDeliveryOtp o userOtp now with
    | Except.error _ => o
    | Except.ok o' => o'
  | Op.cancelItem pid =>
    match cancelOrderItem o pid with
    | Except.error _ => o
    | Except.ok o' => o'
  | Op.requestRet => requestReturn o

/-- The claimed order invariant: `deliveryOtp` and `otpExpiresAt` are non-null
exactly when the status is `Shipped` and the OTP is not yet verified. -/
def otpInvariant (o : Order) : Bool :=
  (o.deliveryOtp.isSome == (o.status == Status.shipped && !o.otpVerified)) &&
  (o.otpExpiresAt.isSome == (o.status == Status.shipped && !o.otpVerified))

/-- Outcome of the email send attempted by an operation. -/
inductive MailOutcome where
  | ok
  | fail
deriving DecidableEq, Repr

/-- HTTP-level outcome of `updateOrderStatus`. -/
inductive UpdateResponse where
  | rejectedDelivered
  | shippedOk
  | statusOk
  | internalError
deriving DecidableEq, Repr

/-- Response plus stored document state after an `updateOrderStatus` request. -/
structure UpdateOutcome where
  response : UpdateResponse
  stored : Order
deriving DecidableEq, Repr

/-- `updateOrderStatus` of `controllers/OrderController.js` with its
notification side effect.  In the `Shipped` branch the order is saved first and
`await sendMail(...)` is NOT wrapped in an inner try/catch, so a mail failure
propagates to the outer catch and the request answers 500
("Failed to update order") although the save already committed.  The
non-Shipped branch of this file sends no mail. -/
def updateOrderStatusResp (o : Order) (status : Status) (otp : String)
    (now : Nat) (mail : MailOutcome) : UpdateOutcome :=
  if status = Status.delivered then
    ⟨UpdateResponse.rejectedDelivered, o⟩
  else if status = Status.shipped then
    let o' : Order :=
      { o with
        deliveryOtp := some otp
        otpExpiresAt := some (now + shippedOtpExpiryMs)
        status := Status.shipped }
    match mail with
    | MailOutcome.ok => ⟨UpdateResponse.shippedOk, o'⟩
    | MailOutcome.fail => ⟨UpdateResponse.internalError, o'⟩
  else
    ⟨UpdateResponse.statusOk, { o with status := status }⟩

/-- The `updateOrderStatus` variant of `src/unnamed/part_002` (lines 151-236):
the 10-minute expiry constant, and every `sendMail` call wrapped in
`try { ... } catch (mailErr) { console.error(...) }`, so a mail failure never
changes the response. -/
def updateOrderStatusRespV2 (o : Order) (status : Status) (otp : String)
    (now : Nat) (mail : MailOutcome) : UpdateOutcome :=
  if status = Status.delivered then
    ⟨UpdateResponse.rejectedDelivered, o⟩
  else if status = Status.shipped then
    let o' : Order :=
      { o with
        deliveryOtp := some otp
        otpExpiresAt := some (now + shippedOtpExpiryMsV2)
        status := Status.shipped }
    match mail with
    | MailOutcome.ok => ⟨UpdateResponse.shippedOk, o'⟩
    | MailOutcome.fail => ⟨UpdateResponse.shippedOk, o'⟩
  else
    ⟨UpdateResponse.statusOk, { o with status := status }⟩

/-- One cart line item, from `models/CartModel.js` (`cartSchema.items`). -/
structure CartItem where
  productId : String
  quantity : Int
  price : Int
  title : String
  img : String
deriving DecidableEq, Repr

/-- A cart document; `none` for a user means no cart document is stored. -/
structure Cart where
  items : List CartItem
deriving DecidableEq, Repr

/-- Response kinds of `addToCart` in `CartController.js`. -/
inductive AddResult where
  | badRequest
  | updated
  | created
  | noCart
deriving DecidableEq, Repr

/-- The in-place quantity update of `addToCart`: find the first item with the
given `productId`, add `quantityDelta` to its quantity and splice it out when
the result is `<= 0`; `none` when `findIndex` returns `-1`. -/
def applyDelta (pid : String) (delta : Int) : List CartItem → Option (List CartItem)
  | [] => none
  | i :: rest =>
    if i.productId = pid then
      some (if i.quantity + delta ≤ 0 then rest
            else { i with quantity := i.quantity + delta } :: rest)
    else
      (applyDelta pid delta rest).map (fun l => i :: l)

/-- `addToCart` of `CartController.js` (lines 46-106) for one request item,
returning the response kind and the stored cart afterwards.  Missing required
fields answer 400 without touching the store; an existing item gets
`quantity += quantityDelta` and is removed when the result is `<= 0` (the cart
is then SAVED, even with an empty items list); a missing item is pushed only
when `quantityDelta > 0` (otherwise the unchanged cart is saved); with no cart
document, a positive delta creates a cart and a non-positive one answers 404. -/
def addToCart (store : Option Cart) (productId title : String) (price : Int)
    (quantityDelta : Int) (img : String) : AddResult × Option Cart :=
  if productId.isEmpty || title.isEmpty || img.isEmpty then
    (AddResult.badRequest, store)
  else
    match store with
    | some cart =>
      match applyDelta productId quantityDelta cart.items with
      | some items' => (AddResult.updated, some { cart with items := items' })
      | none =>
        if quantityDelta > 0 then
          (AddResult.updated,
            some { cart with
              items := cart.items ++ [⟨productId, quantityDelta, price, title, img⟩] })
        else
          (AddResult.updated, some cart)
    | none =>
      if quantityDelta > 0 then
        (AddResult.created, some ⟨[⟨productId, quantityDelta, price, title, img⟩]⟩)
      else
        (AddResult.noCart, none)

/-- Response kinds of `removeFromCart` in `CartController.js`. -/
inductive RemoveResult where
  | cartNotFound
  | cartDeleted
  | itemRemoved
deriving DecidableEq, Repr

/-- `removeFromCart` of `CartController.js` (lines 108-139): filters out every
item with the given `productId`; when no items remain the whole cart document
is deleted, otherwise the filtered cart is saved. -/
def removeFromCart (store : Option Cart) (productId : String) :
    RemoveResult × Option Cart :=
  match store with
  | none => (RemoveResult.cartNotFound, none)
  | some cart =>
    let items' := cart.items.filter (fun i => i.productId ≠ productId)
    if items'.isEmpty then
      (RemoveResult.cartDeleted, none)
    else
      (RemoveResult.itemRemoved, some { cart with items := items' })

/-- The claimed cart-store invariant: every stored cart is non-empty and every
stored line item has quantity at least 1. -/
def cartInvariant (store : Option Cart) : Bool :=
  match store with
  | none => true
  | some c => !c.items.isEmpty && c.items.all (fun i => 1 ≤ i.quantity)

/-- The quantity part of the cart invariant on its own. -/
def cartQtyInvariant (store : Option Cart) : Bool :=
  match store with
  | none => true
  | some c => c.items.all (fun i => 1 ≤ i.quantity)

/-- `s.toLowerCase()` of JavaScript (character-wise lowering). -/
def toLowerB (s : String) : String := String.mk (s.data.map Char.toLower)

/-- `s.trim()` of JavaScript: strip leading and trailing whitespace. -/
def trimB (s : String) : String :=
  String.mk
    (((s.data.dropWhile Char.isWhitespace).reverse.dropWhile
        Char.isWhitespace).reverse)

/-- Prefix test on character lists (`String.prototype.startsWith`). -/
def leadEq : List Char → List Char → Bool
  | [], _ => true
  | _ :: _, [] => false
  | a :: as, b :: bs => a == b && leadEq as bs

/-- `s.startsWith(p)` of JavaScript. -/
def startsWithB (s p : String) : Bool := leadEq p.toList s.toList

/-- Substring occurrence on character lists. -/
def subList (n : List Char) : List Char → Bool
  | [] => leadEq n []
  | c :: t => leadEq n (c :: t) || subList n t

/-- `hay.includes(needle)` of JavaScript. -/
def containsSub (hay needle : String) : Bool := subList needle.toList hay.toList

/-- A chatbot HTTP reply: the `reply` text and the `intent` field of the JSON
response. -/
structure ChatResponse where
  reply : String
  intent : String
deriving DecidableEq, Repr

/-- The canned replies of the deterministic tier of `replyChatBot`
(`controllers/ChatBotController.js`, lines 160-182). -/
def returnsReply : String :=
  "Our return policy allows returns within 30 days of purchase for a full refund. Some exclusions may apply to sale or digital items. For specifics, see the product page or contact support@myawesomeshop.com."

/-- Canned shipping reply of the deterministic tier. -/
def shippingReply : String :=
  "Standard shipping is free on orders over $50. Exact costs are shown at checkout based on your address and selected shipping speed."

/-- Canned payment-methods reply of the deterministic tier. -/
def paymentsReply : String :=
  "We accept Visa, MasterCard, Amex, Discover, PayPal, and Google Pay."

/-- Canned greeting reply of the deterministic tier. -/
def greetingReply : String :=
  "Hello! 👋 How can I help you with your MyAwesomeShop products, orders, or account today?"

/-- The quick-handled intents of `replyChatBot` in
`controllers/ChatBotController.js` (lines 159-182), in source order: returns,
shipping, payments, greeting.  `inputMessage` is the trimmed, lower-cased
message.  `none` means the request falls through to the later flows (cart,
track-order, recent-orders, classifier fallback). -/
def fastRoute (inputMessage : String) : Option ChatResponse :=
  if containsSub inputMessage "return policy" || containsSub inputMessage "returns" then
    some ⟨returnsReply, "returns"⟩
  else if containsSub inputMessage "shipping cost" || containsSub inputMessage "shipping costs"
      || containsSub inputMessage "shipping" then
    some ⟨shippingReply, "shipping"⟩
  else if containsSub inputMessage "payment methods" || containsSub inputMessage "payment" then
    some ⟨paymentsReply, "payments"⟩
  else if inputMessage == "hello" || inputMessage == "hi" || inputMessage == "hey"
      || startsWithB inputMessage "hello" || startsWithB inputMessage "hi" then
    some ⟨greetingReply, "greeting"⟩
  else
    none

/-- `replyChatBot` of `controllers/ChatBotController.js`:
`inputMessage = message.trim().toLowerCase()`; a quick-handled intent
short-circuits with its canned reply before any database or classifier call.
Everything after the deterministic tier (cart, track-order, recent-orders and
the external-classifier fallback, which may depend on classifier availability)
is abstracted by the `fallback` argument. -/
def replyChatBot (message : String) (fallback : ChatResponse) : ChatResponse :=
  let inputMessage := toLowerB (trimB message)
  match fastRoute inputMessage with
  | some r => r
  | none => fallback

/-- A JavaScript value occurring in the id-like fields of a stored cart item
(`productId`, `product`, `_id`, `product_id`): either a string or an object,
of which the normalizer reads `_id`/`id` (modelled as `oid`/`jid`) and, for a
nested product, `title`/`name`/`price`. -/
inductive JVal where
  | jstr (s : String)
  | jobj (oid jid : Option String) (title name : Option String) (price : Option Int)
deriving DecidableEq, Repr

/-- JavaScript truthiness of a possibly absent id-like value: `null`,
`undefined` and `""` are falsy, objects and non-empty strings truthy. -/
def jtruthy : Option JVal → Bool
  | none => false
  | some (JVal.jstr s) => !s.isEmpty
  | some (JVal.jobj _ _ _ _ _) => true

/-- JavaScript truthiness of a possibly absent string. -/
def struthy : Option String → Bool
  | none => false
  | some s => !s.isEmpty

/-- `a || b || dflt` on strings (first truthy wins, defaulting). -/
def jsStrOr (a b : Option String) (dflt : String) : String :=
  if struthy a then a.getD dflt else if struthy b then b.getD dflt else dflt

/-- `a || dflt` on strings. -/
def jsStrOrD (a : Option String) (dflt : String) : String :=
  if struthy a then a.getD dflt else dflt

/-- `ci.product && (ci.product._id || ci.product.id)` collapsed to `none` when
falsy: the id extracted from a nested product object. -/
def productIdFromProduct : Option JVal → Option JVal
  | some (JVal.jobj oid jid _ _ _) =>
    if struthy oid then oid.map JVal.jstr
    else if struthy jid then jid.map JVal.jstr
    else none
  | _ => none

/-- `ci.product && (ci.product.title || ci.product.name)` collapsed to `none`
when falsy. -/
def titleFromProduct : Option JVal → Option String
  | some (JVal.jobj _ _ t n _) =>
    if struthy t then t else if struthy n then n else none
  | _ => none

/-- `ci.product && typeof ci.product.price === 'number' ? ci.product.price :
null`. -/
def priceFromProduct : Option JVal → Option Int
  | some (JVal.jobj _ _ _ _ p) => p
  | _ => none

/-- A raw stored cart entry as read by the chatbot cart flow; `oid` models the
`_id` field.  All fields are optional, matching the "guess the shape" reads. -/
structure RawItem where
  productId : Option JVal := none
  product : Option JVal := none
  oid : Option JVal := none
  product_id : Option JVal := none
  title : Option String := none
  price : Option Int := none
  qty : Option Int := none
  quantity : Option Int := none
deriving DecidableEq, Repr

/-- A raw cart array element: plain product-id strings are allowed next to
item objects. -/
inductive RawEntry where
  | rstr (s : String)
  | ritem (it : RawItem)
deriving DecidableEq, Repr

/-- The string pre-mapping of the cart flow:
`typeof ci === 'string' ? { productId: ci, qty: 1 } : ci`. -/
def preMap : RawEntry → RawItem
  | RawEntry.rstr s => { productId := some (JVal.jstr s), qty := some 1 }
  | RawEntry.ritem it => it

/-- `ci.qty ?? ci.quantity ?? 1`. -/
def qtyOf (ci : RawItem) : Int := ci.qty.getD (ci.quantity.getD 1)

/-- `const pid = ci.productId || ci.product || ci._id || ci.product_id`, with a
falsy result collapsed to `none` (the code then takes the `!pid` branch). -/
def pidOf (ci : RawItem) : Option JVal :=
  if jtruthy ci.productId then ci.productId
  else if jtruthy ci.product then ci.product
  else if jtruthy ci.oid then ci.oid
  else if jtruthy ci.product_id then ci.product_id
  else none

/-- `typeof pid === 'object' && (pid._id || pid.id) ? String(pid._id || pid.id)
: String(pid)`; `String` of an object without usable id renders as
`[object Object]`. -/
def jToString : JVal → String
  | JVal.jstr s => s
  | JVal.jobj oid jid _ _ _ =>
    if struthy oid then oid.getD ""
    else if struthy jid then jid.getD ""
    else "[object Object]"

/-- A product document as returned by the `Product` lookups of the cart flow;
`oid` is `String(prod._id)`. -/
structure ProductDoc where
  oid : String
  title : Option String
  name : Option String
  price : Option Int
deriving DecidableEq, Repr

/-- `pidStr.match(/^[0-9a-fA-F]{24}$/)`: a 24-character hex string (a valid
ObjectId reference format). -/
def isHex24 (s : String) : Bool :=
  s.length == 24 &&
    s.toList.all (fun c =>
      c.isDigit || ('a' ≤ c && c ≤ 'f') || ('A' ≤ c && c ≤ 'F'))

/-- The canonical normalized cart item produced by the cart flow:
`{ productId, title, price, qty }`. -/
structure NormItem where
  productId : Option JVal
  title : String
  price : Option Int
  qty : Int
deriving DecidableEq, Repr

/-- Per-item cart normalization of `replyChatBot`
(`controllers/ChatBotController.js`, lines 244-296).  `fById` models
`Product.findById` and `fAlt` the `sku`/`slug`/`productNumber` fallback query;
both are keyed by the stringified pid.  Branch structure mirrors the source:
(a) embedded product info is used directly; (b) otherwise a product reference
is resolved, by primary id for ObjectId-shaped strings and by alternate
identifiers otherwise; (c) when resolution fails, the supplied partial data is
preserved. -/
def normalizeItem (fById fAlt : String → Option ProductDoc) (ci : RawItem) :
    NormItem :=
  if struthy ci.title || jtruthy ci.product then
    { productId :=
        if jtruthy ci.productId then ci.productId
        else productIdFromProduct ci.product
      title := jsStrOr ci.title (titleFromProduct ci.product) "Unknown product"
      price :=
        match ci.price with
        | some p => some p
        | none => priceFromProduct ci.product
      qty := qtyOf ci }
  else
    match pidOf ci with
    | none =>
      { productId := none
        title := jsStrOrD ci.title "Unknown product"
        price := ci.price
        qty := qtyOf ci }
    | some p =>
      match (if isHex24 (jToString p) then fById (jToString p)
          else fAlt (jToString p)) with
      | some prod =>
        { productId := some (JVal.jstr prod.oid)
          title := jsStrOr prod.title prod.name "Unnamed product"
          price := prod.price
          qty := qtyOf ci }
      | none =>
        { productId := some (JVal.jstr (jToString p))
          title := jsStrOrD ci.title "Unknown product"
          price := ci.price
          qty := qtyOf ci }

/-- Normalization of a whole raw cart array: the string pre-mapping followed by
the per-item normalization. -/
def normalizeCart (fById fAlt : String → Option ProductDoc)
    (l : List RawEntry) : List NormItem :=
  l.map (fun e => normalizeItem fById fAlt (preMap e))

/-- Re-injection of a canonical item into the raw shape, for re-normalization:
the canonical `{ productId, title, price, qty }` object read back from the
store. -/
def toRawEntry (n : NormItem) : RawEntry :=
  RawEntry.ritem
    { productId := n.productId
      title := some n.title
      price := n.price
      qty := some n.qty }

/-- Well-formedness of the `productId` field of a normalized item: it is
either `null` or a truthy value (the normalizer never emits a falsy non-null
id). -/
def pidGood : Option JVal → Bool
  | none => true
  | some v => jtruthy (some v)

/-- Sample stored order: Shipped, with an outstanding unverified OTP. -/
def sampleShippedOrder : Order :=
  ⟨[⟨"p1", "Widget", 1, 100⟩], 100, Status.shipped, some "123456", some 1000, false⟩

/-- Sample stored order: Pending, two line items, total 100. -/
def samplePendingOrder : Order :=
  ⟨[⟨"p1", "Widget", 2, 30⟩, ⟨"p2", "Gadget", 1, 40⟩], 100, Status.pending,
    none, none, false⟩

/-- Sample stored order: already Delivered and verified, two line items whose
first subtotal (2 × 60) exceeds the recorded total. -/
def sampleDeliveredOrder : Order :=
  ⟨[⟨"p1", "Widget", 2, 60⟩, ⟨"p2", "Gadget", 1, 40⟩], 100, Status.delivered,
    none, none, true⟩

theorem otpInvariant_none (items : List Item) (total : Int) (st : Status)
    (ver : Bool) (h : st = Status.shipped → ver = true) :
    otpInvariant ⟨items, total, st, none, none, ver⟩ = true := by
  simp only [otpInvariant, Option.isSome_none]
  cases st <;> cases ver <;> simp_all

theorem removeFirst_of_forall_ne (pid : String) (l : List Item)
    (h : ∀ j ∈ l, j.productId ≠ pid) : removeFirst pid l = none := by
  induction l with
  | nil => rfl
  | cons i t ih =>
    have hi : i.productId ≠ pid := h i (by simp)
    simp only [removeFirst, if_neg hi]
    rw [ih (fun j hj => h j (by simp [hj]))]
    rfl

theorem removeFirst_append (pid : String) (it : Item) (pre post : List Item)
    (hpre : ∀ j ∈ pre, j.productId ≠ pid) (hit : it.productId = pid) :
    removeFirst pid (pre ++ it :: post) = some (it, pre ++ post) := by
  induction pre with
  | nil => simp [removeFirst, hit]
  | cons i t ih =>
    have hi : i.productId ≠ pid := hpre i (by simp)
    have ih' := ih (fun j hj => hpre j (by simp [hj]))
    simp [removeFirst, if_neg hi, ih']

/-- Claim C5: for an order containing a line item with the given product
reference, `cancelOrderItem` removes exactly the first such line item,
decrements `totalAmount` by that item's price × quantity, and forces status to
`Cancelled` exactly when the removed item was the last one (otherwise the
status is unchanged); when no line item matches, it fails with the
product-not-in-order error and the stored order is unchanged. -/
theorem claim5_cancel_item (o : Order) (pid : String) :
    ((∀ j ∈ o.items, j.productId ≠ pid) →
      cancelOrderItem o pid = Except.error CancelError.productNotInOrder ∧
      applyOp o (Op.cancelItem pid) = o) ∧
    (∀ it pre post, o.items = pre ++ it :: post →
      (∀ j ∈ pre, j.productId ≠ pid) → it.productId = pid →
      cancelOrderItem o pid =
        Except.ok
          { o with
            totalAmount := o.totalAmount - it.price * it.quantity
            items := pre ++ post
            status := if (pre ++ post).isEmpty then Status.cancelled else o.status }) := by
  constructor
  · intro h
    have hr : removeFirst pid o.items = none := removeFirst_of_forall_ne pid o.items h
    constructor
    · unfold cancelOrderItem
      rw [hr]
    · simp [applyOp, cancelOrderItem, hr]
  · intro it pre post hsplit hpre hit
    have hr : removeFirst pid o.items = some (it, pre ++ post) := by
      rw [hsplit]; exact removeFirst_append pid it pre post hpre hit
    unfold cancelOrderItem
    rw [hr]

theorem claim5_cancel_item_witness :
    cancelOrderItem samplePendingOrder "p2" =
      Except.ok
        ⟨[⟨"p1", "Widget", 2, 30⟩], 60, Status.pending, none, none, false⟩ := by
  have h := (claim5_cancel_item samplePendingOrder "p2").2
    ⟨"p2", "Gadget", 1, 40⟩ [⟨"p1", "Widget", 2, 30⟩] []
    (by decide) (by decide) (by decide)
  rw [h]
  decide

/-- Claim C10: `cancelOrderItem` imposes no precondition on the order status —
for every order in any status whose items contain the product reference, it
succeeds, removes the (first) matching item and decrements `totalAmount` by
exactly that item's price × quantity, with no lower bound on the result. -/
theorem claim10_cancel_no_status_precondition (o : Order) (pid : String)
    (it : Item) (rest : List Item)
    (h : removeFirst pid o.items = some (it, rest)) :
    cancelOrderItem o pid =
      Except.ok
        { o with
          totalAmount := o.totalAmount - it.price * it.quantity
          items := rest
          status := if rest.isEmpty then Status.cancelled else o.status } := by
  unfold cancelOrderItem
  rw [h]

theorem claim10_cancel_no_status_precondition_witness :
    cancelOrderItem sampleDeliveredOrder "p1" =
      Except.ok
        ⟨[⟨"p2", "Gadget", 1, 40⟩], -20, Status.delivered, none, none, true⟩ := by
  have h := claim10_cancel_no_status_precondition sampleDeliveredOrder "p1"
    ⟨"p1", "Widget", 2, 60⟩ [⟨"p2", "Gadget", 1, 40⟩] (by decide)
  rw [h]
  decide

/-- Claim C1 fails on the code: a return request on a Shipped order with an
outstanding unverified OTP satisfies the claimed invariant beforehand, but
`requestReturn` only rewrites the status and leaves both OTP fields set, so
afterwards `deliveryOtp`/`otpExpiresAt` are non-null with status
`Return Requested`. -/
theorem claim1_counterexample :
    otpInvariant sampleShippedOrder = true ∧
    applyOp sampleShippedOrder Op.requestRet =
      ⟨[⟨"p1", "Widget", 1, 100⟩], 100, Status.returnRequested,
        some "123456", some 1000, false⟩ ∧
    otpInvariant (applyOp sampleShippedOrder Op.requestRet) = false := by
  decide

/-- Claim C1 (amended): the invariant "`deliveryOtp`/`otpExpiresAt` non-null
iff status = Shipped and not verified" is preserved by OTP verification
(failures leave the order unchanged, success clears both fields while setting
Delivered/verified), and it is established by the Shipped transition whenever
the order is not already verified; item cancellation, return request and
status updates to other statuses preserve it only when no OTP is outstanding
(they never touch the OTP fields), so the invariant is NOT preserved by every
order operation. -/
theorem claim1_otp_invariant_amended (o : Order) (uo otp : String) (now : Nat)
    (s : Status) (pid : String) :
    (otpInvariant o = true → otpInvariant (applyOp o (Op.verify uo now)) = true) ∧
    (o.otpVerified = false →
      otpInvariant (applyOp o (Op.update Status.shipped otp now)) = true) ∧
    (otpInvariant o = true → (o.status ≠ Status.shipped ∨ o.otpVerified = true) →
      otpInvariant (applyOp o (Op.cancelItem pid)) = true ∧
      otpInvariant (applyOp o Op.requestRet) = true ∧
      (s ≠ Status.shipped → s ≠ Status.delivered →
        otpInvariant (applyOp o (Op.update s otp now)) = true)) := by
  obtain ⟨items, total, st, dOtp, dExp, ver⟩ := o
  refine ⟨?_, ?_, ?_⟩
  · intro hinv
    simp only [applyOp, verifyDeliveryOtp]
    split_ifs with h1 h2 h3 h4
    · exact hinv
    · exact hinv
    · exact hinv
    · exact hinv
    · simp [otpInvariant]
  · intro hver
    simp only at hver
    subst hver
    simp [applyOp, updateOrderStatus, otpInvariant]
  · intro hinv hno
    have hfields : dOtp = none ∧ dExp = none := by
      simp only [otpInvariant] at hinv
      rcases hno with hst | hv
      · simp only at hst
        cases st <;> simp_all <;> cases dOtp <;> cases dExp <;> simp_all
      · simp only at hv
        subst hv
        cases dOtp <;> cases dExp <;> simp_all
    obtain ⟨h1, h2⟩ := hfields
    subst h1
    subst h2
    refine ⟨?_, ?_, ?_⟩
    · simp only [applyOp]
      cases hr : removeFirst pid items with
      | none => simp [cancelOrderItem, hr, otpInvariant] at hinv ⊢; exact hinv
      | some p =>
        obtain ⟨item, rest⟩ := p
        simp only [cancelOrderItem, hr]
        apply otpInvariant_none
        intro hsh
        rcases hno with hst | hv
        · simp only at hst
          exfalso
          split_ifs at hsh
          exact absurd hsh hst
        · simpa using hv
    · simp [applyOp, requestReturn, otpInvariant]
    · intro hs1 hs2
      have happ : applyOp ⟨items, total, st, none, none, ver⟩ (Op.update s otp now) =
          ⟨items, total, s, none, none, ver⟩ := by
        simp [applyOp, updateOrderStatus, hs1, hs2]
      rw [happ]
      exact otpInvariant_none items total s ver (fun hsh => absurd hsh hs1)

theorem claim1_otp_invariant_amended_witness :
    otpInvariant (applyOp sampleShippedOrder (Op.verify "123456" 500)) = true :=
  (claim1_otp_invariant_amended sampleShippedOrder "123456" "000000" 500
    Status.processing "p1").1 (by decide)

/-- Claim C4: asking `updateOrderStatus` for status `Delivered` is rejected
with the use-OTP-verification error before any mutation, leaving the stored
order unchanged; and among the order-mutation operations (status update, OTP
verification, item cancellation, return request) a non-Delivered order can
reach status `Delivered` only through the OTP-verification operation. -/
theorem claim4_delivered_only_via_otp (o : Order) (otp : String) (now : Nat)
    (op : Op) (hnd : o.status ≠ Status.delivered) :
    updateOrderStatus o Status.delivered otp now = UpdateResult.rejectedDelivered ∧
    applyOp o (Op.update Status.delivered otp now) = o ∧
    ((applyOp o op).status = Status.delivered → ∃ uo n, op = Op.verify uo n) := by
  refine ⟨by simp [updateOrderStatus], by simp [applyOp, updateOrderStatus], ?_⟩
  intro h
  cases op with
  | update s otp' n =>
    exfalso
    by_cases g1 : s = Status.delivered
    · subst g1
      simp [applyOp, updateOrderStatus] at h
      exact hnd h
    · by_cases g2 : s = Status.shipped
      · subst g2
        simp [applyOp, updateOrderStatus, g1] at h
      · simp [applyOp, updateOrderStatus, g1, g2] at h
  | verify uo n => exact ⟨uo, n, rfl⟩
  | cancelItem pid =>
    exfalso
    simp only [applyOp] at h
    cases hr : removeFirst pid o.items with
    | none => rw [cancelOrderItem, hr] at h; exact hnd h
    | some p =>
      obtain ⟨item, rest⟩ := p
      rw [cancelOrderItem, hr] at h
      simp only at h
      by_cases he : rest.isEmpty
      · simp [he] at h
      · simp [he] at h
        exact hnd h
  | requestRet =>
    simp [applyOp, requestReturn] at h

theorem claim4_delivered_only_via_otp_witness :
    updateOrderStatus sampleShippedOrder Status.delivered "000000" 0 =
      UpdateResult.rejectedDelivered ∧
    applyOp sampleShippedOrder (Op.update Status.delivered "000000" 0) =
      sampleShippedOrder ∧
    ∃ uo n, Op.verify "123456" 500 = Op.verify uo n := by
  have h := claim4_delivered_only_via_otp sampleShippedOrder "000000" 0
    (Op.verify "123456" 500) (by decide)
  exact ⟨h.1, h.2.1, h.2.2 (by decide)⟩

/-- Claim C2: OTP verification succeeds iff the order exists, its status is
Shipped, an OTP and expiry are present (in the code's sense: not null and not
empty/zero), the current time is at or before the expiry, and the submitted
code equals the stored code; each failing condition (tested in this order)
yields its error kind with the stored order unchanged; on success the status
becomes Delivered, `otpVerified` becomes true and both OTP fields are
cleared. -/
theorem claim2_verify_iff (o? : Option Order) (userOtp : String) (now : Nat) :
    ((∃ o', verifyDeliveryOtpReq o? userOtp now = Except.ok o') ↔
      (∃ o, o? = some o ∧ o.status = Status.shipped ∧
        strFalsy o.deliveryOtp = false ∧ natFalsy o.otpExpiresAt = false ∧
        now ≤ o.otpExpiresAt.getD 0 ∧ o.deliveryOtp = some userOtp)) ∧
    (o? = none →
      verifyDeliveryOtpReq o? userOtp now = Except.error VerifyError.orderNotFound) ∧
    (∀ o, o? = some o →
      (o.status ≠ Status.shipped →
        verifyDeliveryOtpReq o? userOtp now = Except.error VerifyError.notShippedState) ∧
      (o.status = Status.shipped →
        (strFalsy o.deliveryOtp || natFalsy o.otpExpiresAt) = true →
        verifyDeliveryOtpReq o? userOtp now = Except.error VerifyError.noOtpIssued) ∧
      (o.status = Status.shipped →
        (strFalsy o.deliveryOtp || natFalsy o.otpExpiresAt) = false →
        o.otpExpiresAt.getD 0 < now →
        verifyDeliveryOtpReq o? userOtp now = Except.error VerifyError.otpExpired) ∧
      (o.status = Status.shipped →
        (strFalsy o.deliveryOtp || natFalsy o.otpExpiresAt) = false →
        now ≤ o.otpExpiresAt.getD 0 → o.deliveryOtp ≠ some userOtp →
        verifyDeliveryOtpReq o? userOtp now = Except.error VerifyError.otpMismatch) ∧
      (∀ o', verifyDeliveryOtpReq o? userOtp now = Except.ok o' →
        o' = { o with
               status := Status.delivered
               otpVerified := true
               deliveryOtp := none
               otpExpiresAt := none }) ∧
      (∀ e, verifyDeliveryOtpReq o? userOtp now = Except.error e →
        applyOp o (Op.verify userOtp now) = o)) := by
  cases o? with
  | none =>
    refine ⟨?_, fun _ => rfl, ?_⟩
    · simp [verifyDeliveryOtpReq]
    · intro o ho
      exact absurd ho (by simp)
  | some o =>
    simp only [verifyDeliveryOtpReq]
    by_cases h1 : o.status = Status.shipped
    · by_cases h2 : (strFalsy o.deliveryOtp || natFalsy o.otpExpiresAt) = true
      · have hv : verifyDeliveryOtp o userOtp now =
            Except.error VerifyError.noOtpIssued := by
          unfold verifyDeliveryOtp
          rw [if_neg (by simp [h1]), if_pos h2]
        refine ⟨?_, by simp, ?_⟩
        · simp only [hv]
          constructor
          · rintro ⟨o', ho'⟩
            exact absurd ho' (by simp)
          · rintro ⟨o'', ho'', _, hstr, hnat, _⟩
            rw [Option.some_inj] at ho''
            subst ho''
            simp [hstr, hnat] at h2
        · intro o'' ho''
          rw [Option.some_inj] at ho''
          subst ho''
          refine ⟨fun hc => absurd h1 hc, fun _ _ => hv, ?_, ?_, ?_, ?_⟩
          · intro _ hf
            rw [hf] at h2
            simp at h2
          · intro _ hf
            rw [hf] at h2
            simp at h2
          · intro o' ho'
            rw [hv] at ho'
            exact absurd ho' (by simp)
          · intro e _
            simp [applyOp, hv]
      · have h2' : (strFalsy o.deliveryOtp || natFalsy o.otpExpiresAt) = false := by
          simpa using h2
        by_cases h3 : o.otpExpiresAt.getD 0 < now
        · have hv : verifyDeliveryOtp o userOtp now =
              Except.error VerifyError.otpExpired := by
            unfold verifyDeliveryOtp
            rw [if_neg (by simp [h1]), if_neg (by simp [h2']), if_pos h3]
          refine ⟨?_, by simp, ?_⟩
          · simp only [hv]
            constructor
            · rintro ⟨o', ho'⟩
              exact absurd ho' (by simp)
            · rintro ⟨o'', ho'', _, _, _, hle, _⟩
              rw [Option.some_inj] at ho''
              subst ho''
              omega
          · intro o'' ho''
            rw [Option.some_inj] at ho''
            subst ho''
            refine ⟨fun hc => absurd h1 hc, ?_, fun _ _ _ => hv, ?_, ?_, ?_⟩
            · intro _ ht
              rw [ht] at h2'
              simp at h2'
            · intro _ _ hle _
              omega
            · intro o' ho'
              rw [hv] at ho'
              exact absurd ho' (by simp)
            · intro e _
              simp [applyOp, hv]
        · have h3' : now ≤ o.otpExpiresAt.getD 0 := by omega
          by_cases h4 : o.deliveryOtp = some userOtp
          · have hv : verifyDeliveryOtp o userOtp now =
                Except.ok { o with
                  status := Status.delivered
                  otpVerified := true
                  deliveryOtp := none
                  otpExpiresAt := none } := by
              unfold verifyDeliveryOtp
              rw [if_neg (by simp [h1]), if_neg (by simp [h2']), if_neg h3,
                if_neg (by simp [h4])]
            refine ⟨?_, by simp, ?_⟩
            · constructor
              · intro _
                refine ⟨o, rfl, h1, ?_, ?_, h3', h4⟩
                · simpa using (by simpa using h2' : _ ∧ _).1
                · simpa using (by simpa using h2' : _ ∧ _).2
              · intro _
                exact ⟨_, hv⟩
            · intro o'' ho''
              rw [Option.some_inj] at ho''
              subst ho''
              refine ⟨fun hc => absurd h1 hc, ?_, ?_, ?_, ?_, ?_⟩
              · intro _ ht
                rw [ht] at h2'
                simp at h2'
              · intro _ _ hlt
                omega
              · intro _ _ _ hne
                exact absurd h4 hne
              · intro o' ho'
                rw [hv] at ho'
                simpa using ho'.symm
              · intro e he
                rw [hv] at he
                exact absurd he (by simp)
          · have hv : verifyDeliveryOtp o userOtp now =
                Except.error VerifyError.otpMismatch := by
              unfold verifyDeliveryOtp
              rw [if_neg (by simp [h1]), if_neg (by simp [h2']), if_neg h3,
                if_pos (by simp [h4])]
            refine ⟨?_, by simp, ?_⟩
            · simp only [hv]
              constructor
              · rintro ⟨o', ho'⟩
                exact absurd ho' (by simp)
              · rintro ⟨o'', ho'', _, _, _, _, heq⟩
                rw [Option.some_inj] at ho''
                subst ho''
                exact absurd heq h4
            · intro o'' ho''
              rw [Option.some_inj] at ho''
              subst ho''
              refine ⟨fun hc => absurd h1 hc, ?_, ?_, fun _ _ _ _ => hv, ?_, ?_⟩
              · intro _ ht
                rw [ht] at h2'
                simp at h2'
              · intro _ _ hlt
                omega
              · intro o' ho'
                rw [hv] at ho'
                exact absurd ho' (by simp)
              · intro e _
                simp [applyOp, hv]
    · have hv : verifyDeliveryOtp o userOtp now =
          Except.error VerifyError.notShippedState := by
        unfold verifyDeliveryOtp
        rw [if_pos (by simp [h1])]
      refine ⟨?_, by simp, ?_⟩
      · simp only [hv]
        constructor
        · rintro ⟨o', ho'⟩
          exact absurd ho' (by simp)
        · rintro ⟨o'', ho'', hsh, _⟩
          rw [Option.some_inj] at ho''
          subst ho''
          exact absurd hsh h1
      · intro o'' ho''
        rw [Option.some_inj] at ho''
        subst ho''
        refine ⟨fun _ => hv, fun hsh _ => absurd hsh h1, fun hsh _ _ => absurd hsh h1,
          fun hsh _ _ _ => absurd hsh h1, ?_, ?_⟩
        · intro o' ho'
          rw [hv] at ho'
          exact absurd ho' (by simp)
        · intro e _
          simp [applyOp, hv]

theorem claim2_verify_iff_witness :
    ∃ o', verifyDeliveryOtpReq (some sampleShippedOrder) "123456" 500 =
      Except.ok o' :=
  (claim2_verify_iff (some sampleShippedOrder) "123456" 500).1.mpr
    ⟨sampleShippedOrder, rfl, by decide, by decide, by decide, by decide, by decide⟩

/-- Claim C3 fails as a code bug: `updateOrderStatus` in the routed
`controllers/OrderController.js` stores `otpExpiresAt = Date.now() + 1 day`
(86,400,000 ms), outside the claimed fixed 10-15 minute window, although the
notification email composed in the same function states the OTP is
"valid for 10 minutes" and the duplicate controller (`src/unnamed/part_002`)
uses 10 minutes; the generated OTP itself is a 6-digit numeric code. -/
theorem claim3_shipped_expiry_code_bug :
    (updateOrderStatusResp samplePendingOrder Status.shipped "654321" 1000
        MailOutcome.ok).stored.otpExpiresAt = some (1000 + 86400000) ∧
    shippedOtpExpiryMs = 86400000 ∧
    ¬(10 * 60 * 1000 ≤ shippedOtpExpiryMs ∧ shippedOtpExpiryMs ≤ 15 * 60 * 1000) ∧
    shippedOtpExpiryMsV2 = 10 * 60 * 1000 ∧
    (10 * 60 * 1000 ≤ shippedOtpExpiryMsV2 ∧ shippedOtpExpiryMsV2 ≤ 15 * 60 * 1000) ∧
    (∀ r : Nat, r < 900000 → 100000 ≤ generateOtp r ∧ generateOtp r < 1000000) := by
  refine ⟨by decide, by decide, by decide, by decide, by decide, ?_⟩
  intro r hr
  unfold generateOtp
  omega

theorem claim3_shipped_expiry_code_bug_witness :
    100000 ≤ generateOtp 42 ∧ generateOtp 42 < 1000000 :=
  claim3_shipped_expiry_code_bug.2.2.2.2.2 42 (by decide)

/-- Claim C6 fails as a code bug: in the routed `controllers/OrderController.js`
the Shipped branch saves the order and then calls `await sendMail(...)` without
an inner try/catch, so a mail failure reaches the outer catch and the request
answers 500 ("Failed to update order") even though the Shipped state and the
fresh OTP were already committed; the duplicate controller
(`src/unnamed/part_002`) wraps the same call in try/catch and keeps the
success response, as the claim requires. -/
theorem claim6_mail_failure_code_bug :
    (updateOrderStatusResp samplePendingOrder Status.shipped "111111" 0
        MailOutcome.fail).response = UpdateResponse.internalError ∧
    (updateOrderStatusResp samplePendingOrder Status.shipped "111111" 0
        MailOutcome.fail).stored.status = Status.shipped ∧
    (updateOrderStatusResp samplePendingOrder Status.shipped "111111" 0
        MailOutcome.fail).stored.deliveryOtp = some "111111" ∧
    (updateOrderStatusRespV2 samplePendingOrder Status.shipped "111111" 0
        MailOutcome.fail).response = UpdateResponse.shippedOk ∧
    (updateOrderStatusRespV2 samplePendingOrder Status.shipped "111111" 0
        MailOutcome.fail).stored =
      (updateOrderStatusRespV2 samplePendingOrder Status.shipped "111111" 0
        MailOutcome.ok).stored := by
  decide

theorem applyDelta_all_pos (pid : String) (delta : Int) :
    ∀ l l' : List CartItem, (∀ i ∈ l, 1 ≤ i.quantity) →
      applyDelta pid delta l = some l' → ∀ i ∈ l', 1 ≤ i.quantity := by
  intro l
  induction l with
  | nil =>
    intro l' _ h
    simp [applyDelta] at h
  | cons i t ih =>
    intro l' hall h
    simp only [applyDelta] at h
    by_cases hp : i.productId = pid
    · rw [if_pos hp, Option.some_inj] at h
      subst h
      split_ifs with hq
      · exact fun j hj => hall j (List.mem_cons_of_mem i hj)
      · intro j hj
        rcases List.mem_cons.mp hj with rfl | hj'
        · simp only
          omega
        · exact hall j (List.mem_cons_of_mem i hj')
    · rw [if_neg hp] at h
      cases hr : applyDelta pid delta t with
      | none =>
        rw [hr] at h
        simp at h
      | some t' =>
        rw [hr] at h
        simp only [Option.map_some'] at h
        rw [Option.some_inj] at h
        subst h
        intro j hj
        rcases List.mem_cons.mp hj with rfl | hj'
        · exact hall j (by simp)
        · exact ih t' (fun k hk => hall k (List.mem_cons_of_mem i hk)) hr j hj'

/-- Claim C7 fails on the code: a one-item cart satisfies the claimed
invariant, but `addToCart` with `quantityDelta = -1` on that item splices the
last item out and then saves the now-empty cart instead of deleting it, so the
store keeps a cart whose items list is empty. -/
theorem claim7_counterexample :
    cartInvariant (some ⟨[⟨"p1", 1, 10, "Widget", "img1"⟩]⟩) = true ∧
    addToCart (some ⟨[⟨"p1", 1, 10, "Widget", "img1"⟩]⟩) "p1" "Widget" 10 (-1) "img1"
      = (AddResult.updated, some ⟨[]⟩) ∧
    cartInvariant
      (addToCart (some ⟨[⟨"p1", 1, 10, "Widget", "img1"⟩]⟩) "p1" "Widget" 10 (-1)
        "img1").2 = false := by
  decide

/-- Claim C7 (amended): `addToCart` and `removeFromCart` never store a line
item with quantity below 1 (an item whose quantity reaches ≤ 0 is spliced
out), and `removeFromCart` deletes a cart whose items list becomes empty; but
`addToCart` saves a cart with an empty items list instead of deleting it when
its last item is removed, so the emptiness part of the invariant holds for
`removeFromCart` only. -/
theorem claim7_cart_invariant_amended (store store2 : Option Cart)
    (pid title : String) (price delta : Int) (img pid2 : String)
    (h1 : cartQtyInvariant store = true) (h2 : cartInvariant store2 = true) :
    cartQtyInvariant (addToCart store pid title price delta img).2 = true ∧
    cartInvariant (removeFromCart store2 pid2).2 = true := by
  constructor
  · by_cases hbad : (pid.isEmpty || title.isEmpty || img.isEmpty) = true
    · simp only [addToCart, if_pos hbad]
      exact h1
    · cases store with
      | none =>
        by_cases hpos : delta > 0
        · simp only [addToCart, if_neg hbad, if_pos hpos]
          simp only [cartQtyInvariant, List.all_cons, List.all_nil,
            Bool.and_true, decide_eq_true_eq]
          omega
        · simp only [addToCart, if_neg hbad, if_neg hpos]
          rfl
      | some cart =>
        have hall : ∀ i ∈ cart.items, 1 ≤ i.quantity := by
          simpa [cartQtyInvariant, List.all_eq_true] using h1
        cases hr : applyDelta pid delta cart.items with
        | some items' =>
          simp only [addToCart, if_neg hbad, hr]
          simp only [cartQtyInvariant, List.all_eq_true, decide_eq_true_eq]
          exact applyDelta_all_pos pid delta cart.items items' hall hr
        | none =>
          by_cases hpos : delta > 0
          · simp only [addToCart, if_neg hbad, hr, if_pos hpos]
            simp only [cartQtyInvariant, List.all_eq_true, decide_eq_true_eq,
              List.mem_append, List.mem_singleton]
            intro j hj
            rcases hj with hj' | rfl
            · exact hall j hj'
            · simp only
              omega
          · simp only [addToCart, if_neg hbad, hr, if_neg hpos]
            exact h1
  · unfold removeFromCart
    cases store2 with
    | none => rfl
    | some cart =>
      have hall : ∀ i ∈ cart.items, 1 ≤ i.quantity := by
        have := h2
        simp only [cartInvariant, Bool.and_eq_true, List.all_eq_true,
          decide_eq_true_eq] at this
        exact this.2
      simp only
      split_ifs with hemp
      · rfl
      · simp only [cartInvariant, Bool.and_eq_true, List.all_eq_true,
          decide_eq_true_eq]
        refine ⟨by simpa using hemp, ?_⟩
        intro j hj
        exact hall j (List.mem_of_mem_filter hj)

theorem claim7_cart_invariant_amended_witness :
    cartQtyInvariant
      (addToCart (some ⟨[⟨"p1", 2, 10, "Widget", "img1"⟩]⟩) "p1" "Widget" 10 1
        "img1").2 = true ∧
    cartInvariant
      (removeFromCart
        (some ⟨[⟨"p1", 2, 10, "Widget", "img1"⟩, ⟨"p2", 1, 5, "Gadget", "img2"⟩]⟩)
        "p1").2 = true :=
  claim7_cart_invariant_amended
    (some ⟨[⟨"p1", 2, 10, "Widget", "img1"⟩]⟩)
    (some ⟨[⟨"p1", 2, 10, "Widget", "img1"⟩, ⟨"p2", 1, 5, "Gadget", "img2"⟩]⟩)
    "p1" "Widget" 10 1 "img1" "p1" (by decide) (by decide)

/-- Claim C9: for the input message "hi" the chat router
(`controllers/ChatBotController.js`, the one mounted at `/api/chatbot`)
answers in the deterministic quick-handled tier, before any database or
classifier call, with the canned greeting and intent `greeting`; the reply is
the same for every behaviour of the flows that follow the deterministic tier,
so classifier availability or failure cannot change it. -/
theorem claim9_hi_deterministic_greeting (fallback : ChatResponse) :
    replyChatBot "hi" fallback = ⟨greetingReply, "greeting"⟩ := by
  have h : fastRoute (toLowerB (trimB "hi")) = some ⟨greetingReply, "greeting"⟩ := by
    decide
  simp [replyChatBot, h]

theorem claim9_hi_deterministic_greeting_witness :
    replyChatBot "hi" ⟨"fallback reply", "openai_answer"⟩ =
      ⟨greetingReply, "greeting"⟩ :=
  claim9_hi_deterministic_greeting ⟨"fallback reply", "openai_answer"⟩

theorem struthy_getD (a : Option String) (d : String) (h : struthy a = true) :
    (a.getD d).isEmpty = false := by
  cases a with
  | none => simp [struthy] at h
  | some s =>
    simp only [struthy] at h
    simpa using h

theorem jsStrOr_ne_empty (a b : Option String) (d : String)
    (hd : d.isEmpty = false) : (jsStrOr a b d).isEmpty = false := by
  unfold jsStrOr
  split_ifs with h1 h2
  · exact struthy_getD a d h1
  · exact struthy_getD b d h2
  · exact hd

theorem jsStrOrD_ne_empty (a : Option String) (d : String)
    (hd : d.isEmpty = false) : (jsStrOrD a d).isEmpty = false := by
  unfold jsStrOrD
  split_ifs with h1
  · exact struthy_getD a d h1
  · exact hd

theorem pidGood_productIdFromProduct (x : Option JVal) :
    pidGood (productIdFromProduct x) = true := by
  cases x with
  | none => rfl
  | some v =>
    cases v with
    | jstr s => rfl
    | jobj oid jid t n p =>
      simp only [productIdFromProduct]
      split_ifs with h1 h2
      · cases oid with
        | none => simp [struthy] at h1
        | some s =>
          simp only [struthy] at h1
          simpa [pidGood, jtruthy, Option.map_some'] using h1
      · cases jid with
        | none => simp [struthy] at h2
        | some s =>
          simp only [struthy] at h2
          simpa [pidGood, jtruthy, Option.map_some'] using h2
      · rfl

theorem pidOf_truthy (ci : RawItem) (p : JVal) (h : pidOf ci = some p) :
    jtruthy (some p) = true := by
  unfold pidOf at h
  split_ifs at h with h1 h2 h3 h4
  · rw [h] at h1; exact h1
  · rw [h] at h2; exact h2
  · rw [h] at h3; exact h3
  · rw [h] at h4; exact h4

theorem jToString_ne_empty (p : JVal) (h : jtruthy (some p) = true) :
    (jToString p).isEmpty = false := by
  cases p with
  | jstr s => simpa [jtruthy, jToString] using h
  | jobj oid jid t n pr =>
    simp only [jToString]
    split_ifs with h1 h2
    · exact struthy_getD oid "" h1
    · exact struthy_getD jid "" h2
    · decide

theorem normalizeItem_good (f g : String → Option ProductDoc) (ci : RawItem)
    (hf : ∀ s d, f s = some d → d.oid.isEmpty = false)
    (hg : ∀ s d, g s = some d → d.oid.isEmpty = false) :
    (normalizeItem f g ci).title.isEmpty = false ∧
    pidGood (normalizeItem f g ci).productId = true := by
  by_cases hbr : (struthy ci.title || jtruthy ci.product) = true
  · unfold normalizeItem
    rw [if_pos hbr]
    constructor
    · exact jsStrOr_ne_empty _ _ _ (by decide)
    · show pidGood (if jtruthy ci.productId = true then ci.productId
        else productIdFromProduct ci.product) = true
      by_cases hp : jtruthy ci.productId = true
      · rw [if_pos hp]
        cases hc : ci.productId with
        | none => rw [hc] at hp; simp [jtruthy] at hp
        | some v => rw [hc] at hp; simpa [pidGood] using hp
      · rw [if_neg hp]
        exact pidGood_productIdFromProduct ci.product
  · unfold normalizeItem
    rw [if_neg hbr]
    cases hp : pidOf ci with
    | none => exact ⟨jsStrOrD_ne_empty _ _ (by decide), rfl⟩
    | some p =>
      cases hl : (if isHex24 (jToString p) = true then f (jToString p)
          else g (jToString p)) with
      | some prod =>
        simp only [hl]
        constructor
        · exact jsStrOr_ne_empty _ _ _ (by decide)
        · have hoid : prod.oid.isEmpty = false := by
            by_cases hh : isHex24 (jToString p) = true
            · rw [if_pos hh] at hl
              exact hf _ _ hl
            · rw [if_neg hh] at hl
              exact hg _ _ hl
          simpa [pidGood, jtruthy] using hoid
      | none =>
        simp only [hl]
        constructor
        · exact jsStrOrD_ne_empty _ _ (by decide)
        · have := jToString_ne_empty p (pidOf_truthy ci p hp)
          simpa [pidGood, jtruthy] using this

theorem normalizeItem_canonical_fix (f g : String → Option ProductDoc)
    (n : NormItem) (ht : n.title.isEmpty = false)
    (hp : pidGood n.productId = true) :
    normalizeItem f g (preMap (toRawEntry n)) = n := by
  obtain ⟨pid?, t, pr, q⟩ := n
  simp only at ht hp
  cases pid? with
  | none =>
    cases pr <;>
      simp [preMap, toRawEntry, normalizeItem, struthy, ht, jtruthy, jsStrOr,
        titleFromProduct, priceFromProduct, productIdFromProduct, qtyOf]
  | some v =>
    have hv : jtruthy (some v) = true := by simpa [pidGood] using hp
    cases pr <;>
      simp [preMap, toRawEntry, normalizeItem, struthy, ht, hv, jsStrOr,
        titleFromProduct, priceFromProduct, productIdFromProduct, qtyOf]

/-- Claim C8: the cart normalization of the chatbot cart flow is idempotent —
re-normalizing the canonical items produced by one normalization pass yields
the same list, element for element, for every raw cart array and every
behaviour of the product lookups (assuming lookups return documents with a
non-empty stringified `_id`, as `String(prod._id)` of a found document always
is). -/
theorem claim8_normalization_idempotent (f g : String → Option ProductDoc)
    (l : List RawEntry)
    (hf : ∀ s d, f s = some d → d.oid.isEmpty = false)
    (hg : ∀ s d, g s = some d → d.oid.isEmpty = false) :
    normalizeCart f g ((normalizeCart f g l).map toRawEntry) =
      normalizeCart f g l := by
  unfold normalizeCart
  induction l with
  | nil => rfl
  | cons e tl ih =>
    simp only [List.map_cons, List.cons.injEq]
    refine ⟨?_, ih⟩
    have hgood := normalizeItem_good f g (preMap e) hf hg
    exact normalizeItem_canonical_fix f g (normalizeItem f g (preMap e))
      hgood.1 hgood.2

theorem claim8_normalization_idempotent_witness :
    normalizeCart (fun _ => none) (fun _ => none)
        ((normalizeCart (fun _ => none) (fun _ => none)
            [RawEntry.rstr "p1",
              RawEntry.ritem { title := some "Widget", price := some 5, qty := some 2 }]).map
          toRawEntry) =
      normalizeCart (fun _ => none) (fun _ => none)
        [RawEntry.rstr "p1",
          RawEntry.ritem { title := some "Widget", price := some 5, qty := some 2 }] :=
  claim8_normalization_idempotent (fun _ => none) (fun _ => none) _
    (fun s d h => by simp at h) (fun s d h => by simp at h)

